import Mathlib

/-! kittenhouse, `core/authorizer/openstack.go`

A shallow embedding of the OpenStack token authorizer and theorems about it.

Modelling conventions

* A Go value of type `error` is an `Option GoError`; `none` is `nil`.
* A Go pointer to a `ProviderClient` or to an `Authorizer` is an address (`Nat`)
  into the memory `Mem`; a possibly-nil pointer is an `Option Nat`.
* The two function values the program creates (`client.ReauthFunc` and
  `client.EndpointLocator`) are closures.  Each is represented by the record of
  the variables it captures (`ReauthClosure`, `LocatorClosure`) together with a
  `call` function that runs its body; a nil func is `none`.
* Everything the program imports (gophercloud, gcfg, os) is a field of `SDK`:
  the program is verified for every behaviour of these collaborators.  Calls
  that talk to the identity provider thread an abstract provider state `W`.
  The SDK calls made inside `v3auth` (`NewIdentityV3`, `tokens3.Create`) may
  read the whole memory but do not write the program's `ProviderClient`s.
* A function body either returns or panics (`Outcome`).
-/

namespace Kittenhouse

/-- A non-nil Go `error` value. -/
structure GoError where
  msg : String
  deriving DecidableEq, Repr

/-- How the execution of a Go function body ends. -/
inductive Outcome (α : Type) where
  | returned (a : α)
  | panicked
  deriving DecidableEq, Repr

/-- The struct `gophercloud.EndpointOpts` (field `Type` is spelled `Type_`). -/
structure EndpointOpts where
  Type_ : String := ""
  Name : String := ""
  Region : String := ""
  Availability : String := ""
  deriving DecidableEq, Repr

/-- The fields of `gophercloud.AuthOptions` that `buildProviderClient` sets. -/
structure GophercloudAuthOptions where
  IdentityEndpoint : String := ""
  Username : String := ""
  UserID : String := ""
  Password : String := ""
  DomainID : String := ""
  DomainName : String := ""
  AllowReauth : Bool := false
  deriving DecidableEq, Repr

/-- The struct `tokens3.AuthOptions`. -/
structure Tokens3AuthOptions where
  IdentityEndpoint : String := ""
  Username : String := ""
  UserID : String := ""
  Password : String := ""
  DomainID : String := ""
  DomainName : String := ""
  AllowReauth : Bool := false
  TokenID : String := ""
  deriving DecidableEq, Repr

/-- The dynamic types of a `tokens3.AuthOptionsBuilder` value that the type switch
of `v3auth` tells apart: `*gophercloud.AuthOptions`, `*tokens3.AuthOptions`, and
`trusts.AuthOptsExt`, a struct that embeds another builder next to a trust id and
is the value `buildProviderClient` passes. -/
inductive AuthOptionsBuilder where
  | gophercloudAuthOptions (o : GophercloudAuthOptions)
  | tokens3AuthOptions (o : Tokens3AuthOptions)
  | trustsAuthOptsExt (TrustID : String) (inner : AuthOptionsBuilder)
  deriving DecidableEq, Repr

/-- The method `CanReauth()`: both option structs report their `AllowReauth` field,
`trusts.AuthOptsExt` forwards to the builder it embeds. -/
def AuthOptionsBuilder.CanReauth : AuthOptionsBuilder → Bool
  | .gophercloudAuthOptions o => o.AllowReauth
  | .tokens3AuthOptions o => o.AllowReauth
  | .trustsAuthOptsExt _ inner => inner.CanReauth

/-- The struct `tokens3.Token`, of which the program reads `ID`. -/
structure Token where
  ID : String
  deriving DecidableEq, Repr

/-- An endpoint of a catalog entry. -/
structure CatalogEndpoint where
  Region : String
  Interface : String
  URL : String
  deriving DecidableEq, Repr

/-- An entry of the service catalog. -/
structure CatalogEntry where
  Type_ : String
  Endpoints : List CatalogEndpoint
  deriving DecidableEq, Repr

/-- The struct `tokens3.ServiceCatalog`. -/
structure ServiceCatalog where
  Entries : List CatalogEntry
  deriving DecidableEq, Repr

/-- The closure `func(opts gophercloud.EndpointOpts) (string, error)` of `v3auth`
(lines 89-91): it captures `catalog`. -/
structure LocatorClosure where
  catalog : ServiceCatalog
  deriving DecidableEq, Repr

/-- The closure `func() error` of `v3auth` (lines 80-87): it captures the throw-away
client `tac` (by reference), `endpoint`, `tao`, `eo` and the pointer `client`. -/
structure ReauthClosure where
  tac : Nat
  endpoint : String
  tao : AuthOptionsBuilder
  eo : EndpointOpts
  client : Nat
  deriving DecidableEq, Repr

/-- The fields of `gophercloud.ProviderClient` the program reads or writes. -/
structure ProviderClient where
  IdentityBase : String := ""
  IdentityEndpoint : String := ""
  TokenID : String := ""
  ReauthFunc : Option ReauthClosure := none
  EndpointLocator : Option LocatorClosure := none
  deriving DecidableEq, Repr

/-- The struct `gophercloud.ServiceClient`; `ProviderClient` is a pointer. -/
structure ServiceClient where
  ProviderClient : Nat
  Endpoint : String
  Type_ : String := ""
  deriving DecidableEq, Repr

/-- The struct `Authorizer` (line 17).  `authClient` points to a `ServiceClient`
that only this `Authorizer` refers to, so the pointee is stored in place. -/
structure Authorizer where
  authClient : ServiceClient
  deriving DecidableEq, Repr

/-- The result of `tokens3.Create` as seen through `ExtractToken` and
`ExtractServiceCatalog`. -/
structure CreateResult where
  ExtractToken : Except GoError Token
  ExtractServiceCatalog : Except GoError ServiceCatalog

/-- The part of `openstack_provider.Config` that `buildProviderClient` reads
(`cfg.Global`). -/
structure GlobalConfig where
  AuthURL : String := ""
  Username : String := ""
  UserID : String := ""
  Password : String := ""
  TrustID : String := ""
  DomainID : String := ""
  DomainName : String := ""
  deriving DecidableEq, Repr

/-- The struct `openstack_provider.Config`. -/
structure Config where
  Global : GlobalConfig := {}
  deriving DecidableEq, Repr

/-- An open file (`*os.File`), named by its path. -/
structure File where
  path : String
  deriving DecidableEq, Repr

/-- Memory of the process together with the state `world` of everything outside
it (identity provider, file system).  `clients` and `authorizers` are the heap
cells of the `ProviderClient` and `Authorizer` objects; addresses below
`nextClient` resp. `nextAuthorizer` are allocated. -/
structure Mem (W : Type) where
  world : W
  clients : Nat → ProviderClient
  nextClient : Nat
  authorizers : Nat → Authorizer
  nextAuthorizer : Nat

/-- Store `c` at address `a`. -/
def Mem.setClient {W : Type} (m : Mem W) (a : Nat) (c : ProviderClient) : Mem W :=
  { m with clients := Function.update m.clients a c }

/-- Allocate a fresh `ProviderClient` holding `c`; returns its address. -/
def Mem.newClient {W : Type} (m : Mem W) (c : ProviderClient) : Mem W × Nat :=
  ({ m with clients := Function.update m.clients m.nextClient c,
            nextClient := m.nextClient + 1 }, m.nextClient)

/-- Allocate a fresh `Authorizer` holding `a`; returns its address. -/
def Mem.newAuthorizer {W : Type} (m : Mem W) (a : Authorizer) : Mem W × Nat :=
  ({ m with authorizers := Function.update m.authorizers m.nextAuthorizer a,
            nextAuthorizer := m.nextAuthorizer + 1 }, m.nextAuthorizer)

/-- The imported packages, as far as the program calls them.

* `NewClient` is `openstack.NewClient`, `NewIdentityV3` is `openstack.NewIdentityV3`,
  `Create` is `tokens3.Create`, `V3EndpointURL` is `openstack.V3EndpointURL`,
  `Validate` is `tokens3.Validate` (which may run the client's reauth function, so
  it returns a new memory), `osOpen` is `os.Open`, `gcfgReadInto` is
  `gcfg.ReadInto` on a zero `Config`, `Close` is the `Close` method of an
  `io.ReadCloser`. -/
structure SDK (W : Type) where
  NewClient : String → Except GoError ProviderClient
  NewIdentityV3 : Mem W → Nat → EndpointOpts → Except GoError ServiceClient
  Create : Mem W → ServiceClient → AuthOptionsBuilder → W × CreateResult
  V3EndpointURL : ServiceCatalog → EndpointOpts → String × Option GoError
  Validate : Mem W → ServiceClient → String → Mem W × Bool × Option GoError
  osOpen : W → String → W × Option File × Option GoError
  gcfgReadInto : W → File → W × Config × Option GoError
  Close : W → File → W

/-- Body of the endpoint locator closure (line 90). -/
def LocatorClosure.call {W : Type} (sdk : SDK W) (f : LocatorClosure)
    (opts : EndpointOpts) : String × Option GoError :=
  sdk.V3EndpointURL f.catalog opts

/-- Lines 42-44 of `v3auth`: a non-empty `endpoint` replaces the endpoint of the
identity client. -/
def overrideEndpoint (v3Client : ServiceClient) (endpoint : String) : ServiceClient :=
  if endpoint ≠ "" then { v3Client with Endpoint := endpoint } else v3Client

/-- The function `v3auth` (lines 35-94); `client` is the address of the
`ProviderClient` it is given, the result is the returned `error`. -/
def v3auth {W : Type} (sdk : SDK W) (m : Mem W) (client : Nat) (endpoint : String)
    (opts : AuthOptionsBuilder) (eo : EndpointOpts) : Mem W × Option GoError :=
  match sdk.NewIdentityV3 m client eo with
  | .error err => (m, some err)
  | .ok v3Client0 =>
    let v3Client := overrideEndpoint v3Client0 endpoint
    let result := sdk.Create m v3Client opts
    let m1 : Mem W := { m with world := result.1 }
    match result.2.ExtractToken with
    | .error err => (m1, some err)
    | .ok token =>
      match result.2.ExtractServiceCatalog with
      | .error err => (m1, some err)
      | .ok catalog =>
        -- client.TokenID = token.ID
        let m2 := m1.setClient client { m1.clients client with TokenID := token.ID }
        let m3 :=
          if opts.CanReauth then
            -- tac := *client; tac.ReauthFunc = nil; tac.TokenID = ""
            let tac := m2.newClient { m2.clients client with ReauthFunc := none, TokenID := "" }
            let tao : AuthOptionsBuilder :=
              match opts with
              | .gophercloudAuthOptions ot =>
                .gophercloudAuthOptions { ot with AllowReauth := false }
              | .tokens3AuthOptions ot =>
                .tokens3AuthOptions { ot with AllowReauth := false }
              | _ => opts
            tac.1.setClient client
              { tac.1.clients client with
                ReauthFunc := some { tac := tac.2, endpoint := endpoint, tao := tao,
                                     eo := eo, client := client } }
          else m2
        (m3.setClient client { m3.clients client with EndpointLocator := some { catalog := catalog } },
         none)

/-- Body of the reauth closure (lines 81-86). -/
def ReauthClosure.call {W : Type} (sdk : SDK W) (f : ReauthClosure) (m : Mem W) :
    Mem W × Option GoError :=
  match v3auth sdk m f.tac f.endpoint f.tao f.eo with
  | (m1, some err) => (m1, some err)
  | (m1, none) =>
    (m1.setClient f.client { m1.clients f.client with TokenID := (m1.clients f.tac).TokenID },
     none)

/-- The function `buildProviderClient` (lines 96-123).  The value returned by the
call of `v3auth` on line 117 is dropped; the `err` tested on line 118 is still the
one assigned on line 112, which is nil there. -/
def buildProviderClient {W : Type} (sdk : SDK W) (m : Mem W) (cfg : Config) :
    Mem W × Option Nat × Option GoError :=
  let opts : GophercloudAuthOptions :=
    { IdentityEndpoint := cfg.Global.AuthURL
      Username := cfg.Global.Username
      UserID := cfg.Global.UserID
      Password := cfg.Global.Password
      DomainID := cfg.Global.DomainID
      DomainName := cfg.Global.DomainName
      AllowReauth := true }
  let authOptsExt : AuthOptionsBuilder :=
    .trustsAuthOptsExt cfg.Global.TrustID (.gophercloudAuthOptions opts)
  match sdk.NewClient cfg.Global.AuthURL with
  | .error err => (m, none, some err)
  | .ok c =>
    let client := m.newClient c
    let err : Option GoError := none
    let m1 := (v3auth sdk client.1 client.2 cfg.Global.AuthURL authOptsExt {}).1
    match err with
    | some e => (m1, none, some e)
    | none => (m1, some client.2, none)

/-- Lines 132-159 of `Init`, the statements after `defer config.Close()`.
`glog.Errorf` only logs.  A nil `providerClient` and a nil `EndpointLocator` make
line 147 panic. -/
def InitBody {W : Type} (sdk : SDK W) (configReader : Option File) (m : Mem W) :
    Mem W × Outcome (Option Nat × Option GoError) :=
  let read : W × Config × Option GoError :=
    match configReader with
    | some r => sdk.gcfgReadInto m.world r
    | none => (m.world, {}, none)
  match read with
  | (w, _, some err) => ({ m with world := w }, .returned (none, some err))
  | (w, cfg, none) =>
    let built := buildProviderClient sdk { m with world := w } cfg
    let eo : EndpointOpts :=
      { Region := "RegionOne", Type_ := "identity", Availability := "public" }
    match built.2.1 with
    | none => (built.1, .panicked)
    | some providerClient =>
      match (built.1.clients providerClient).EndpointLocator with
      | none => (built.1, .panicked)
      | some locator =>
        match locator.call sdk eo with
        | (_, some err) => (built.1, .returned (none, some err))
        | (eurl, none) =>
          let authClient : ServiceClient := { ProviderClient := providerClient, Endpoint := eurl }
          let authorizer := built.1.newAuthorizer { authClient := authClient }
          (authorizer.1, .returned (some authorizer.2, none))

/-- The function `Init` (lines 125-160).  `config` is declared on line 126 and
never assigned, so it is the nil `io.ReadCloser` when line 131 defers
`config.Close()`: the method value of a nil interface is evaluated by the `defer`
statement, which panics.  (A call of `Close` on the nil interface at function exit
would panic as well, so the outcome does not depend on when the method value is
evaluated.)  Were `config` non-nil, the rest of the body would run and the deferred
`Close` after it. -/
def Init {W : Type} (sdk : SDK W) (cfgPath : String) (m : Mem W) :
    Mem W × Outcome (Option Nat × Option GoError) :=
  let config : Option File := none
  match sdk.osOpen m.world cfgPath with
  | (w, _, some err) => ({ m with world := w }, .returned (none, some err))
  | (w, configReader, none) =>
    match config with
    | none => ({ m with world := w }, .panicked)
    | some c =>
      let r := InitBody sdk configReader { m with world := w }
      ({ r.1 with world := sdk.Close r.1.world c }, r.2)

/-- The method `(*Authorizer).validate` (lines 162-169), for a non-nil receiver
whose pointee is `a`. -/
def Authorizer.validate {W : Type} (sdk : SDK W) (m : Mem W) (a : Authorizer)
    (token : String) : Mem W × Bool × Option GoError :=
  match sdk.Validate m a.authClient token with
  | (m1, _, some err) => (m1, false, some err)
  | (m1, valid, none) => (m1, valid, none)

/-- The process: its memory and the package-level variables `authorizer`
(line 21) and `once` (line 22, `onceDone` is whether `once.Do` has run its
function).  `initRuns` is a ghost counter of the runs of the function literal
passed to `once.Do`. -/
structure Process (W : Type) where
  mem : Mem W
  authorizer : Option Nat
  onceDone : Bool
  initRuns : Nat

/-- The function `New` (lines 24-33) over the constructor `Init` it calls, which
works on the memory and does not mention the package-level variables.
`once.Do(f)` runs `f` unless it ran before, and counts a panicking `f` as run; the
local `err` is nil unless this very call ran `Init`. -/
def New {W : Type}
    (Init : String → Mem W → Mem W × Outcome (Option Nat × Option GoError))
    (p : Process W) : Process W × Outcome (Option Nat × Option GoError) :=
  if p.onceDone then
    (p, .returned (p.authorizer, none))
  else
    match Init "/etc/kittenhouse/auth.cfg" p.mem with
    | (m, .panicked) =>
      ({ p with mem := m, onceDone := true, initRuns := p.initRuns + 1 }, .panicked)
    | (m, .returned (a, err)) =>
      let p1 : Process W :=
        { mem := m, authorizer := a, onceDone := true, initRuns := p.initRuns + 1 }
      match err with
      | some e => (p1, .returned (none, some e))
      | none => (p1, .returned (p1.authorizer, none))

/-- The outcomes of `n` successive calls of `New`, and the process after them. -/
def callNew {W : Type}
    (Init : String → Mem W → Mem W × Outcome (Option Nat × Option GoError)) :
    Nat → Process W → Process W × List (Outcome (Option Nat × Option GoError))
  | 0, p => (p, [])
  | n + 1, p =>
    let r := New Init p
    let rest := callNew Init n r.1
    (rest.1, r.2 :: rest.2)

/-! ## A scripted provider

A concrete `SDK` over `W := Nat`, the number of token requests the provider has
answered so far.  It is used to run the program on explicit inputs. -/

/-- Endpoint resolution of the scripted provider: the first endpoint of the catalog
whose service type, region and interface match the filter. -/
def firstEndpoint (catalog : ServiceCatalog) (opts : EndpointOpts) :
    String × Option GoError :=
  match (catalog.Entries.filter (fun e => e.Type_ == opts.Type_)).flatMap
      (fun e => e.Endpoints.filter
        (fun p => p.Region == opts.Region && p.Interface == opts.Availability)) with
  | [] => ("", some { msg := "no matching endpoint" })
  | p :: _ => (p.URL, none)

/-- What the outside world does in a run: the provider answers its `n`-th token
request with `exchanges n`, the configuration file holds `configFile` (or does not
exist), and the provider reports the tokens of `validTokens` as valid. -/
structure Script where
  exchanges : Nat → CreateResult
  configFile : Option Config
  validTokens : List String

/-- The `SDK` that follows a `Script`. -/
def scripted (sc : Script) : SDK Nat where
  NewClient := fun url =>
    if url = "" then .error { msg := "empty auth url" }
    else .ok { IdentityBase := url, IdentityEndpoint := url }
  NewIdentityV3 := fun m client _ =>
    .ok { ProviderClient := client, Endpoint := (m.clients client).IdentityBase ++ "v3/",
          Type_ := "identity" }
  Create := fun m _ _ => (m.world + 1, sc.exchanges m.world)
  V3EndpointURL := firstEndpoint
  Validate := fun m _ token => (m, decide (token ∈ sc.validTokens), none)
  osOpen := fun w path =>
    match sc.configFile with
    | some _ => (w, some { path := path }, none)
    | none => (w, none, some { msg := "open: no such file or directory" })
  gcfgReadInto := fun w _ =>
    match sc.configFile with
    | some cfg => (w, cfg, none)
    | none => (w, {}, some { msg := "read: bad file" })
  Close := fun w _ => w

/-- A memory without objects. -/
def emptyMem : Mem Nat :=
  { world := 0, clients := fun _ => {}, nextClient := 0,
    authorizers := fun _ => { authClient := { ProviderClient := 0, Endpoint := "" } },
    nextAuthorizer := 0 }

/-- A memory with one `ProviderClient`, at address 0, as `openstack.NewClient`
returns it. -/
def oneClient : Mem Nat :=
  (emptyMem.newClient { IdentityBase := "https://id.example/",
                        IdentityEndpoint := "https://id.example/" }).1

/-- A catalog whose identity service is at `https://a.example/v3`. -/
def catalogA : ServiceCatalog :=
  { Entries := [{ Type_ := "identity",
                  Endpoints := [{ Region := "RegionOne", Interface := "public",
                                  URL := "https://a.example/v3" }] }] }

/-- A catalog whose identity service is at `https://b.example/v3`. -/
def catalogB : ServiceCatalog :=
  { Entries := [{ Type_ := "identity",
                  Endpoints := [{ Region := "RegionOne", Interface := "public",
                                  URL := "https://b.example/v3" }] }] }

/-- The configuration of the runs below. -/
def sampleConfig : Config :=
  { Global := { AuthURL := "https://id.example/", Username := "svc", Password := "p",
                DomainName := "default", TrustID := "trust-1" } }

/-- The provider accepts the credentials: the first token request yields `tok-1`
and `catalogA`, every later one `tok-2` and `catalogB`. -/
def acceptingScript : Script :=
  { exchanges := fun n =>
      if n = 0 then { ExtractToken := .ok { ID := "tok-1" }, ExtractServiceCatalog := .ok catalogA }
      else { ExtractToken := .ok { ID := "tok-2" }, ExtractServiceCatalog := .ok catalogB }
    configFile := some sampleConfig
    validTokens := ["usertoken-abc"] }

/-- The provider rejects the credentials: no token request yields a token. -/
def rejectingScript : Script :=
  { exchanges := fun _ =>
      { ExtractToken := .error { msg := "401 Unauthorized" },
        ExtractServiceCatalog := .error { msg := "401 Unauthorized" } }
    configFile := some sampleConfig
    validTokens := [] }

/-- The provider accepts the first token request and rejects every later one. -/
def expiringScript : Script :=
  { exchanges := fun n =>
      if n = 0 then { ExtractToken := .ok { ID := "tok-1" }, ExtractServiceCatalog := .ok catalogA }
      else { ExtractToken := .error { msg := "401 Unauthorized" },
             ExtractServiceCatalog := .error { msg := "401 Unauthorized" } }
    configFile := some sampleConfig
    validTokens := [] }

/-- The configuration file does not exist. -/
def missingFileScript : Script :=
  { exchanges := acceptingScript.exchanges
    configFile := none
    validTokens := [] }

/-- Password options with reauthentication allowed (`*gophercloud.AuthOptions`). -/
def passwordOpts : AuthOptionsBuilder :=
  .gophercloudAuthOptions { IdentityEndpoint := "https://id.example/", Username := "svc",
                            Password := "p", DomainName := "default", AllowReauth := true }

/-- The trust-scoped options `buildProviderClient` builds from `sampleConfig`. -/
def trustOpts : AuthOptionsBuilder :=
  .trustsAuthOptsExt "trust-1" passwordOpts

/-- The filter `Init` resolves (lines 141-145). -/
def identityFilter : EndpointOpts :=
  { Region := "RegionOne", Type_ := "identity", Availability := "public" }

/-- The memory after `v3auth` authenticated the client of `oneClient` against a
provider that follows `expiringScript`. -/
def authedThenExpired : Mem Nat :=
  (v3auth (scripted expiringScript) oneClient 0 "" passwordOpts {}).1

/-- The memory after `v3auth` authenticated the client of `oneClient` with password
options against a provider that follows `acceptingScript`. -/
def authedMem : Mem Nat :=
  (v3auth (scripted acceptingScript) oneClient 0 "" passwordOpts {}).1

/-- The reauth closure that `v3auth` installs in `authedMem`: the throw-away client
is at address 1 and the captured options are `passwordOpts` with `AllowReauth`
switched off. -/
def authedClosure : ReauthClosure :=
  { tac := 1, endpoint := "", eo := {}, client := 0,
    tao := .gophercloudAuthOptions
      { IdentityEndpoint := "https://id.example/", Username := "svc", Password := "p",
        DomainName := "default", AllowReauth := false } }

/-- The memory after `v3auth` authenticated the client of `oneClient` with the
trust-scoped options, as `buildProviderClient` does. -/
def trustAuthedMem : Mem Nat :=
  (v3auth (scripted acceptingScript) oneClient 0 "https://id.example/" trustOpts {}).1

/-- The reauth closure that `v3auth` installs in `trustAuthedMem`: the captured
options are `trustOpts` themselves. -/
def trustClosure : ReauthClosure :=
  { tac := 1, endpoint := "https://id.example/", eo := {}, client := 0, tao := trustOpts }

/-- A process that has not called `New` yet. -/
def freshProcess : Process Nat :=
  { mem := emptyMem, authorizer := none, onceDone := false, initRuns := 0 }

/-- `Init` without its line 131 (`defer config.Close()`): a constructor that can
return an `Authorizer`. -/
def initWithoutDefer (sdk : SDK Nat) (cfgPath : String) (m : Mem Nat) :
    Mem Nat × Outcome (Option Nat × Option GoError) :=
  match sdk.osOpen m.world cfgPath with
  | (w, _, some err) => ({ m with world := w }, .returned (none, some err))
  | (w, configReader, none) => InitBody sdk configReader { m with world := w }

/-! ## Facts about `v3auth` -/

section Lemmas
variable {W : Type}

theorem v3auth_error_frame (sdk : SDK W) (m m1 : Mem W) (client : Nat) (endpoint : String)
    (opts : AuthOptionsBuilder) (eo : EndpointOpts) (e : GoError)
    (h : v3auth sdk m client endpoint opts eo = (m1, some e)) :
    m1.clients = m.clients ∧ m1.nextClient = m.nextClient := by
  unfold v3auth at h
  split at h
  · cases h; exact ⟨rfl, rfl⟩
  · simp only at h
    split at h
    · cases h; exact ⟨rfl, rfl⟩
    · split at h
      · cases h; exact ⟨rfl, rfl⟩
      · simp at h

theorem v3auth_error_source (sdk : SDK W) (m m1 : Mem W) (client : Nat) (endpoint : String)
    (opts : AuthOptionsBuilder) (eo : EndpointOpts) (e : GoError)
    (h : v3auth sdk m client endpoint opts eo = (m1, some e)) :
    sdk.NewIdentityV3 m client eo = .error e ∨
    ∃ v3c, sdk.NewIdentityV3 m client eo = .ok v3c ∧
      ((sdk.Create m (overrideEndpoint v3c endpoint) opts).2.ExtractToken = .error e ∨
       ∃ token, (sdk.Create m (overrideEndpoint v3c endpoint) opts).2.ExtractToken = .ok token ∧
         (sdk.Create m (overrideEndpoint v3c endpoint) opts).2.ExtractServiceCatalog = .error e) := by
  unfold v3auth at h
  split at h
  · rename_i err hN
    simp only [Prod.mk.injEq, Option.some.injEq] at h
    left; rw [hN, h.2]
  · rename_i v3c hN
    right
    refine ⟨v3c, hN, ?_⟩
    simp only at h
    split at h
    · rename_i err hT
      simp only [Prod.mk.injEq, Option.some.injEq] at h
      left; rw [hT, h.2]
    · rename_i token hT
      right
      refine ⟨token, hT, ?_⟩
      split at h
      · rename_i err hC
        simp only [Prod.mk.injEq, Option.some.injEq] at h
        rw [hC, h.2]
      · simp at h

theorem v3auth_ok_inv (sdk : SDK W) (m m1 : Mem W) (client : Nat) (endpoint : String)
    (opts : AuthOptionsBuilder) (eo : EndpointOpts)
    (h : v3auth sdk m client endpoint opts eo = (m1, none)) :
    ∃ v3c token catalog, sdk.NewIdentityV3 m client eo = .ok v3c ∧
      (sdk.Create m (overrideEndpoint v3c endpoint) opts).2.ExtractToken = .ok token ∧
      (sdk.Create m (overrideEndpoint v3c endpoint) opts).2.ExtractServiceCatalog = .ok catalog := by
  unfold v3auth at h
  split at h
  · simp at h
  · rename_i v3c hN
    simp only at h
    split at h
    · simp at h
    · rename_i token hT
      split at h
      · simp at h
      · rename_i catalog hC
        exact ⟨v3c, token, catalog, hN, hT, hC⟩

theorem v3auth_ok_facts (sdk : SDK W) (m : Mem W) (client : Nat) (endpoint : String)
    (opts : AuthOptionsBuilder) (eo : EndpointOpts) (v3c : ServiceClient) (token : Token)
    (catalog : ServiceCatalog)
    (hN : sdk.NewIdentityV3 m client eo = .ok v3c)
    (hT : (sdk.Create m (overrideEndpoint v3c endpoint) opts).2.ExtractToken = .ok token)
    (hC : (sdk.Create m (overrideEndpoint v3c endpoint) opts).2.ExtractServiceCatalog = .ok catalog) :
    (v3auth sdk m client endpoint opts eo).2 = none ∧
    ((v3auth sdk m client endpoint opts eo).1.clients client).EndpointLocator
      = some { catalog := catalog } ∧
    (client < m.nextClient →
      ((v3auth sdk m client endpoint opts eo).1.clients client).TokenID = token.ID) ∧
    m.nextClient ≤ (v3auth sdk m client endpoint opts eo).1.nextClient ∧
    (∀ a, a ≠ client → a < m.nextClient →
      (v3auth sdk m client endpoint opts eo).1.clients a = m.clients a) ∧
    (opts.CanReauth = true →
      (v3auth sdk m client endpoint opts eo).1.nextClient = m.nextClient + 1 ∧
      ∃ f, ((v3auth sdk m client endpoint opts eo).1.clients client).ReauthFunc = some f ∧
        f.tac = m.nextClient ∧ f.client = client ∧ f.endpoint = endpoint ∧ f.eo = eo) := by
  simp only [v3auth, hN, hT, hC]
  rcases Bool.eq_false_or_eq_true opts.CanReauth with hr | hr
  · simp only [hr, if_true, Mem.setClient, Mem.newClient, Function.update_same]
    refine ⟨trivial, trivial, ?_, ?_, ?_, ?_⟩
    · intro hlt
      have hne : client ≠ m.nextClient := Nat.ne_of_lt hlt
      simp [Function.update_noteq hne]
    · exact Nat.le_succ _
    · intro a ha hlt
      have hne : a ≠ m.nextClient := Nat.ne_of_lt hlt
      simp [Function.update_noteq ha, Function.update_noteq hne]
    · intro _
      exact ⟨trivial, _, rfl, rfl, rfl, rfl, rfl⟩
  · simp only [hr, Mem.setClient, Function.update_same]
    refine ⟨trivial, trivial, ?_, ?_, ?_, ?_⟩
    · intro _; simp
    · simp
    · intro a ha _
      simp [Function.update_noteq ha]
    · intro h; simp at h

end Lemmas

/-- Once `once.Do` has run its function, every call of `New` returns the stored
`authorizer` with a nil error and changes nothing. -/
theorem callNew_of_done
    (Init : String → Mem W → Mem W × Outcome (Option Nat × Option GoError))
    (n : Nat) (p : Process W) (h : p.onceDone = true) :
    callNew Init n p = (p, List.replicate n (.returned (p.authorizer, none))) := by
  induction n with
  | zero => rfl
  | succ k ih =>
    have hnew : New Init p = (p, .returned (p.authorizer, none)) := by simp [New, h]
    simp [callNew, hnew, ih, List.replicate_succ]

/-! ## The claims -/

section Claims
variable {W : Type}

/-- C10: when `v3auth` returns an error, the `TokenID`, `ReauthFunc` and
`EndpointLocator` of the client it was given are what they were before the call;
and the error is the one of the identity client creation, of the token extraction
or of the catalog extraction. -/
theorem v3auth_error_leaves_client (sdk : SDK W) (m m1 : Mem W) (client : Nat)
    (endpoint : String) (opts : AuthOptionsBuilder) (eo : EndpointOpts) (e : GoError)
    (h : v3auth sdk m client endpoint opts eo = (m1, some e)) :
    (m1.clients client).TokenID = (m.clients client).TokenID ∧
    (m1.clients client).ReauthFunc = (m.clients client).ReauthFunc ∧
    (m1.clients client).EndpointLocator = (m.clients client).EndpointLocator ∧
    (sdk.NewIdentityV3 m client eo = .error e ∨
     ∃ v3c, sdk.NewIdentityV3 m client eo = .ok v3c ∧
      ((sdk.Create m (overrideEndpoint v3c endpoint) opts).2.ExtractToken = .error e ∨
       ∃ token, (sdk.Create m (overrideEndpoint v3c endpoint) opts).2.ExtractToken = .ok token ∧
         (sdk.Create m (overrideEndpoint v3c endpoint) opts).2.ExtractServiceCatalog
           = .error e)) := by
  have hf := (v3auth_error_frame sdk m m1 client endpoint opts eo e h).1
  rw [hf]
  exact ⟨rfl, rfl, rfl, v3auth_error_source sdk m m1 client endpoint opts eo e h⟩

/-- Witness of C10: a client that holds the token `tok-1`, a reauth closure and a
locator keeps all three when a second `v3auth` on it is rejected. -/
theorem v3auth_error_leaves_client_witness :
    (v3auth (scripted expiringScript) authedThenExpired 0 "" passwordOpts {}).2
      = some { msg := "401 Unauthorized" } ∧
    ((v3auth (scripted expiringScript) authedThenExpired 0 "" passwordOpts {}).1.clients 0).TokenID
      = "tok-1" ∧
    ((v3auth (scripted expiringScript) authedThenExpired 0 "" passwordOpts {}).1.clients 0).ReauthFunc
      = (authedThenExpired.clients 0).ReauthFunc ∧
    ((v3auth (scripted expiringScript) authedThenExpired 0 "" passwordOpts {}).1.clients 0).EndpointLocator
      = some { catalog := catalogA } :=
  have h := v3auth_error_leaves_client (scripted expiringScript) authedThenExpired
    (v3auth (scripted expiringScript) authedThenExpired 0 "" passwordOpts {}).1 0 ""
    passwordOpts {} { msg := "401 Unauthorized" } (Prod.ext rfl (by decide))
  ⟨by decide, h.1.trans (by decide), h.2.1, h.2.2.1.trans (by decide)⟩

/-- C5: when the identity client is created and the token-creation exchange yields
a token and a catalog, `v3auth` returns nil, the client's `TokenID` is the ID of the
issued token, and its `EndpointLocator` returns, for every filter, what
`V3EndpointURL` returns on the catalog the provider sent. -/
theorem v3auth_success_installs_token_and_locator (sdk : SDK W) (m : Mem W) (client : Nat)
    (endpoint : String) (opts : AuthOptionsBuilder) (eo : EndpointOpts)
    (v3c : ServiceClient) (token : Token) (catalog : ServiceCatalog)
    (hc : client < m.nextClient)
    (hN : sdk.NewIdentityV3 m client eo = .ok v3c)
    (hT : (sdk.Create m (overrideEndpoint v3c endpoint) opts).2.ExtractToken = .ok token)
    (hC : (sdk.Create m (overrideEndpoint v3c endpoint) opts).2.ExtractServiceCatalog
      = .ok catalog) :
    (v3auth sdk m client endpoint opts eo).2 = none ∧
    ((v3auth sdk m client endpoint opts eo).1.clients client).TokenID = token.ID ∧
    ∃ locator,
      ((v3auth sdk m client endpoint opts eo).1.clients client).EndpointLocator = some locator ∧
      ∀ filter, locator.call sdk filter = sdk.V3EndpointURL catalog filter := by
  have hf := v3auth_ok_facts sdk m client endpoint opts eo v3c token catalog hN hT hC
  exact ⟨hf.1, hf.2.2.1 hc, { catalog := catalog }, hf.2.1, fun _ => rfl⟩

/-- Witness of C5: the trust-scoped options of `buildProviderClient` against a
provider that issues `tok-1` with `catalogA`. -/
theorem v3auth_success_installs_token_and_locator_witness :
    (v3auth (scripted acceptingScript) oneClient 0 "https://id.example/" trustOpts {}).2 = none ∧
    ((v3auth (scripted acceptingScript) oneClient 0 "https://id.example/" trustOpts {}).1.clients
      0).TokenID = "tok-1" ∧
    ∃ locator,
      ((v3auth (scripted acceptingScript) oneClient 0 "https://id.example/" trustOpts
        {}).1.clients 0).EndpointLocator = some locator ∧
      ∀ filter, locator.call (scripted acceptingScript) filter = firstEndpoint catalogA filter :=
  v3auth_success_installs_token_and_locator (scripted acceptingScript) oneClient 0
    "https://id.example/" trustOpts {}
    { ProviderClient := 0, Endpoint := "https://id.example/v3/", Type_ := "identity" }
    { ID := "tok-1" } catalogA (by decide) rfl rfl rfl

/-- C8: let `v3auth` succeed on a client with options that can reauth.
Then the client holds a reauth closure, and in every later memory: if the closure's
re-authentication (`v3auth` on the throw-away client) succeeds, the closure returns
nil and the live client's `TokenID` is the throw-away client's new `TokenID`, the ID
of the token just issued; if it fails with `e`, the closure returns `e` and the live
client's `TokenID` is unchanged. -/
theorem reauth_closure_updates_token (sdk : SDK W) (m m1 : Mem W) (client : Nat)
    (endpoint : String) (opts : AuthOptionsBuilder) (eo : EndpointOpts)
    (hr : opts.CanReauth = true)
    (h : v3auth sdk m client endpoint opts eo = (m1, none)) :
    ∃ f, (m1.clients client).ReauthFunc = some f ∧
      ∀ m2 : Mem W, m1.nextClient ≤ m2.nextClient →
        (∀ m3, v3auth sdk m2 f.tac f.endpoint f.tao f.eo = (m3, none) →
          (f.call sdk m2).2 = none ∧
          ((f.call sdk m2).1.clients client).TokenID = (m3.clients f.tac).TokenID ∧
          ∃ v3c token, sdk.NewIdentityV3 m2 f.tac f.eo = .ok v3c ∧
            (sdk.Create m2 (overrideEndpoint v3c f.endpoint) f.tao).2.ExtractToken = .ok token ∧
            ((f.call sdk m2).1.clients client).TokenID = token.ID) ∧
        (∀ m3 e, v3auth sdk m2 f.tac f.endpoint f.tao f.eo = (m3, some e) →
          (f.call sdk m2).2 = some e ∧
          ((f.call sdk m2).1.clients client).TokenID = (m2.clients client).TokenID) := by
  obtain ⟨v3c, token, catalog, hN, hT, hC⟩ := v3auth_ok_inv sdk m m1 client endpoint opts eo h
  have hf := v3auth_ok_facts sdk m client endpoint opts eo v3c token catalog hN hT hC
  rw [h] at hf
  obtain ⟨hnext, f, hfun, htac, hcl, -, -⟩ := hf.2.2.2.2.2 hr
  simp only at hnext hfun
  refine ⟨f, hfun, fun m2 hm2 => ⟨fun m3 h3 => ?_, fun m3 e h3 => ?_⟩⟩
  · obtain ⟨v3c2, token2, catalog2, hN2, hT2, hC2⟩ :=
      v3auth_ok_inv sdk m2 m3 f.tac f.endpoint f.tao f.eo h3
    have hf2 := v3auth_ok_facts sdk m2 f.tac f.endpoint f.tao f.eo v3c2 token2 catalog2 hN2 hT2 hC2
    rw [h3] at hf2
    have htok : (m3.clients f.tac).TokenID = token2.ID := hf2.2.2.1 (by omega)
    have hcall : ((f.call sdk m2).1.clients client).TokenID = (m3.clients f.tac).TokenID := by
      simp [ReauthClosure.call, h3, Mem.setClient, hcl]
    refine ⟨by simp [ReauthClosure.call, h3], hcall, v3c2, token2, hN2, hT2, hcall.trans htok⟩
  · have hfr := (v3auth_error_frame sdk m2 m3 f.tac f.endpoint f.tao f.eo e h3).1
    exact ⟨by simp [ReauthClosure.call, h3], by simp [ReauthClosure.call, h3, hfr]⟩

/-- Witness of C8: after a first authentication (`tok-1`) the closure re-authenticates
and the live client holds `tok-2`. -/
theorem reauth_closure_updates_token_witness :
    ∃ f, (authedMem.clients 0).ReauthFunc = some f ∧
      (f.call (scripted acceptingScript) authedMem).2 = none ∧
      ((f.call (scripted acceptingScript) authedMem).1.clients 0).TokenID = "tok-2" := by
  obtain ⟨f, hfun, hall⟩ := reauth_closure_updates_token (scripted acceptingScript) oneClient
    authedMem 0 "" passwordOpts {} (by decide) (Prod.ext rfl (by decide))
  have hf : f = authedClosure := Option.some.inj (hfun.symm.trans (by decide))
  subst hf
  have h3 := (hall authedMem (Nat.le_refl _)).1
    (v3auth (scripted acceptingScript) authedMem authedClosure.tac authedClosure.endpoint
      authedClosure.tao authedClosure.eo).1 (Prod.ext rfl (by decide))
  exact ⟨authedClosure, hfun, h3.1, h3.2.1.trans (by decide)⟩

/-- Counterexample to C4: the first authentication returns `catalogA`; the reauth
closure then runs successfully and the provider returns `catalogB`, which ends up in
the locator of the throw-away client (address 1); afterwards the live client's
`EndpointLocator` still resolves the identity filter in `catalogA`
(`https://a.example/v3`), not in `catalogB` (`https://b.example/v3`). -/
theorem reauth_leaves_stale_locator :
    (authedMem.clients 0).ReauthFunc = some authedClosure ∧
    (authedClosure.call (scripted acceptingScript) authedMem).2 = none ∧
    ((scripted acceptingScript).Create authedMem
        { ProviderClient := 1, Endpoint := "https://id.example/v3/", Type_ := "identity" }
        authedClosure.tao).2.ExtractServiceCatalog = .ok catalogB ∧
    ((authedClosure.call (scripted acceptingScript) authedMem).1.clients 1).EndpointLocator
      = some { catalog := catalogB } ∧
    ((authedClosure.call (scripted acceptingScript) authedMem).1.clients 0).EndpointLocator
      = some { catalog := catalogA } ∧
    LocatorClosure.call (scripted acceptingScript) { catalog := catalogA } identityFilter
      = ("https://a.example/v3", none) ∧
    (scripted acceptingScript).V3EndpointURL catalogB identityFilter
      = ("https://b.example/v3", none) ∧
    LocatorClosure.call (scripted acceptingScript) { catalog := catalogA } identityFilter
      ≠ (scripted acceptingScript).V3EndpointURL catalogB identityFilter :=
  ⟨by decide, by decide, rfl, by decide, by decide, by decide, by decide, by decide⟩

/-- C4 as amended: let `v3auth` succeed on an allocated client with options that can
reauth.  In every later memory, running the installed reauth closure leaves the live
client's `EndpointLocator` as it was, whether the re-authentication succeeds or
fails; when it succeeds, the catalog the provider returned for it is bound to the
`EndpointLocator` of the throw-away client. -/
theorem reauth_closure_keeps_live_locator (sdk : SDK W) (m m1 : Mem W) (client : Nat)
    (endpoint : String) (opts : AuthOptionsBuilder) (eo : EndpointOpts)
    (hc : client < m.nextClient) (hr : opts.CanReauth = true)
    (h : v3auth sdk m client endpoint opts eo = (m1, none)) :
    ∃ f, (m1.clients client).ReauthFunc = some f ∧
      ∀ m2 : Mem W, m1.nextClient ≤ m2.nextClient →
        ((f.call sdk m2).1.clients client).EndpointLocator
          = (m2.clients client).EndpointLocator ∧
        ∀ v3c token catalog, sdk.NewIdentityV3 m2 f.tac f.eo = .ok v3c →
          (sdk.Create m2 (overrideEndpoint v3c f.endpoint) f.tao).2.ExtractToken = .ok token →
          (sdk.Create m2 (overrideEndpoint v3c f.endpoint) f.tao).2.ExtractServiceCatalog
            = .ok catalog →
          (f.call sdk m2).2 = none ∧
          ((f.call sdk m2).1.clients f.tac).EndpointLocator = some { catalog := catalog } := by
  obtain ⟨v3c, token, catalog, hN, hT, hC⟩ := v3auth_ok_inv sdk m m1 client endpoint opts eo h
  have hf := v3auth_ok_facts sdk m client endpoint opts eo v3c token catalog hN hT hC
  rw [h] at hf
  obtain ⟨hnext, f, hfun, htac, hcl, -, -⟩ := hf.2.2.2.2.2 hr
  simp only at hnext hfun
  have hne : client ≠ f.tac := by omega
  refine ⟨f, hfun, fun m2 hm2 => ⟨?_, fun v3c2 token2 catalog2 hN2 hT2 hC2 => ?_⟩⟩
  · rcases hres : v3auth sdk m2 f.tac f.endpoint f.tao f.eo with ⟨m3, _ | e⟩
    · obtain ⟨v3c2, token2, catalog2, hN2, hT2, hC2⟩ :=
        v3auth_ok_inv sdk m2 m3 f.tac f.endpoint f.tao f.eo hres
      have hf2 := v3auth_ok_facts sdk m2 f.tac f.endpoint f.tao f.eo v3c2 token2 catalog2
        hN2 hT2 hC2
      rw [hres] at hf2
      have hkeep : m3.clients client = m2.clients client := hf2.2.2.2.2.1 client hne (by omega)
      simp [ReauthClosure.call, hres, Mem.setClient, hcl, hkeep]
    · have hfr := (v3auth_error_frame sdk m2 _ f.tac f.endpoint f.tao f.eo e hres).1
      simp [ReauthClosure.call, hres, hfr]
  · have hf2 := v3auth_ok_facts sdk m2 f.tac f.endpoint f.tao f.eo v3c2 token2 catalog2
      hN2 hT2 hC2
    have hres : v3auth sdk m2 f.tac f.endpoint f.tao f.eo
        = ((v3auth sdk m2 f.tac f.endpoint f.tao f.eo).1, none) := Prod.ext rfl hf2.1
    have hloc := hf2.2.1
    rw [ReauthClosure.call, hres]
    refine ⟨rfl, ?_⟩
    simp only [Mem.setClient, hcl, Function.update_noteq (Ne.symm hne)]
    exact hloc

/-- Witness of C4 as amended: after the closure re-authenticated against `catalogB`,
the live client's locator is still the one bound to `catalogA` and the throw-away
client's locator is bound to `catalogB`. -/
theorem reauth_closure_keeps_live_locator_witness :
    ∃ f, (authedMem.clients 0).ReauthFunc = some f ∧
      (f.call (scripted acceptingScript) authedMem).2 = none ∧
      ((f.call (scripted acceptingScript) authedMem).1.clients 0).EndpointLocator
        = some { catalog := catalogA } ∧
      ((f.call (scripted acceptingScript) authedMem).1.clients f.tac).EndpointLocator
        = some { catalog := catalogB } := by
  obtain ⟨f, hfun, hall⟩ := reauth_closure_keeps_live_locator (scripted acceptingScript)
    oneClient authedMem 0 "" passwordOpts {} (by decide) (by decide)
    (Prod.ext rfl (by decide))
  have hf : f = authedClosure := Option.some.inj (hfun.symm.trans (by decide))
  subst hf
  have h2 := hall authedMem (Nat.le_refl _)
  have h3 := h2.2 { ProviderClient := 1, Endpoint := "https://id.example/v3/", Type_ := "identity" }
    { ID := "tok-2" } catalogB rfl rfl rfl
  exact ⟨authedClosure, hfun, h3.1, h2.1.trans (by decide), h3.2⟩

/-- C6: in `n` successive calls of `New` by a process that has not constructed yet,
the function given to `once.Do` (the call of `Init`) runs once if `n > 0`, and not
at all if `n = 0`; and if that run of `Init` returns `a` with a nil error, each of
the `n` calls returns `a` with a nil error. -/
theorem New_constructs_once
    (Init : String → Mem W → Mem W × Outcome (Option Nat × Option GoError))
    (p : Process W) (n : Nat) (h : p.onceDone = false) :
    (callNew Init n p).1.initRuns = p.initRuns + (if n = 0 then 0 else 1) ∧
    ∀ m a, Init "/etc/kittenhouse/auth.cfg" p.mem = (m, .returned (a, none)) →
      (callNew Init n p).2 = List.replicate n (.returned (a, none)) := by
  cases n with
  | zero => exact ⟨rfl, fun _ _ _ => rfl⟩
  | succ k =>
    have hdone : (New Init p).1.onceDone = true ∧ (New Init p).1.initRuns = p.initRuns + 1 := by
      rcases hI : Init "/etc/kittenhouse/auth.cfg" p.mem with ⟨m, ⟨a, _ | e⟩ | _⟩ <;>
        simp [New, h, hI]
    refine ⟨?_, fun m a hI => ?_⟩
    · simp [callNew, callNew_of_done Init k _ hdone.1, hdone.2]
    · have hnew : (New Init p).2 = .returned (a, none) ∧ (New Init p).1.authorizer = a := by
        simp [New, h, hI]
      simp [callNew, callNew_of_done Init k _ hdone.1, hnew.1, hnew.2, List.replicate_succ]

/-- Witness of C6: three calls of `New` over a constructor that succeeds (`Init`
without its `defer` statement, against an accepting provider) run it once and all
return the `Authorizer` at address 0; three calls of `New` over `Init` itself run
it once. -/
theorem New_constructs_once_witness :
    (callNew (initWithoutDefer (scripted acceptingScript)) 3 freshProcess).1.initRuns = 1 ∧
    (callNew (initWithoutDefer (scripted acceptingScript)) 3 freshProcess).2
      = [.returned (some 0, none), .returned (some 0, none), .returned (some 0, none)] ∧
    (callNew (Init (scripted acceptingScript)) 3 freshProcess).1.initRuns = 1 :=
  have h := New_constructs_once (initWithoutDefer (scripted acceptingScript)) freshProcess 3 rfl
  ⟨h.1, h.2 (initWithoutDefer (scripted acceptingScript) "/etc/kittenhouse/auth.cfg"
      emptyMem).1 (some 0) (Prod.ext rfl (by decide)),
   (New_constructs_once (Init (scripted acceptingScript)) freshProcess 3 rfl).1⟩

/-- C7: `validate` returns `(b, nil)` exactly when `tokens3.Validate` reports `b`
without error, for both values of `b`; when `tokens3.Validate` fails with `e`,
`validate` returns `(false, e)`. -/
theorem validate_reports_provider_answer (sdk : SDK W) (m : Mem W) (a : Authorizer)
    (token : String) :
    (∀ b, (a.validate sdk m token).2 = (b, none) ↔
      (sdk.Validate m a.authClient token).2 = (b, none)) ∧
    (∀ v e, (sdk.Validate m a.authClient token).2 = (v, some e) →
      (a.validate sdk m token).2 = (false, some e)) := by
  rcases hv : sdk.Validate m a.authClient token with ⟨m1, v, _ | e⟩
  · simp [Authorizer.validate, hv]
  · simp [Authorizer.validate, hv]

/-- Witness of C7: a token the provider reports valid gives `(true, nil)`, a token
it reports invalid gives `(false, nil)`. -/
theorem validate_reports_provider_answer_witness :
    (Authorizer.validate (scripted acceptingScript) authedMem
      { authClient := { ProviderClient := 0, Endpoint := "https://a.example/v3" } }
      "usertoken-abc").2 = (true, none) ∧
    (Authorizer.validate (scripted acceptingScript) authedMem
      { authClient := { ProviderClient := 0, Endpoint := "https://a.example/v3" } }
      "forged").2 = (false, none) :=
  ⟨((validate_reports_provider_answer (scripted acceptingScript) authedMem _ _).1 true).mpr
      (by decide),
   ((validate_reports_provider_answer (scripted acceptingScript) authedMem _ _).1 false).mpr
      (by decide)⟩

/-- C1, the code at the failing input: the configuration file is missing, so `Init`
fails with the error of `os.Open`.  The first call of `New` returns a nil
`Authorizer` with that error; the second and third calls return a nil `Authorizer`
with a nil error; `Init` ran once. -/
theorem New_forgets_construction_error :
    (Init (scripted missingFileScript) "/etc/kittenhouse/auth.cfg" emptyMem).2
      = .returned (none, some { msg := "open: no such file or directory" }) ∧
    (callNew (Init (scripted missingFileScript)) 3 freshProcess).2
      = [.returned (none, some { msg := "open: no such file or directory" }),
         .returned (none, none), .returned (none, none)] ∧
    (callNew (Init (scripted missingFileScript)) 3 freshProcess).1.initRuns = 1 :=
  ⟨by decide, by decide, by decide⟩

/-- C2, the code at the failing input: with the trust-scoped options of
`buildProviderClient`, which can reauth, the closure `v3auth` installs captures the
very same options, which still can reauth; running the closure installs a
`ReauthFunc` on the throw-away client.  With password options the captured copy
cannot reauth and the throw-away client gets no `ReauthFunc`. -/
theorem trust_options_keep_reauth :
    trustOpts.CanReauth = true ∧
    (trustAuthedMem.clients 0).ReauthFunc = some trustClosure ∧
    trustClosure.tao = trustOpts ∧
    trustClosure.tao.CanReauth = true ∧
    (trustClosure.call (scripted acceptingScript) trustAuthedMem).2 = none ∧
    ((trustClosure.call (scripted acceptingScript) trustAuthedMem).1.clients
      trustClosure.tac).ReauthFunc
      = some { tac := 2, endpoint := "https://id.example/", eo := {}, client := 1,
               tao := trustOpts } ∧
    (authedMem.clients 0).ReauthFunc = some authedClosure ∧
    authedClosure.tao.CanReauth = false ∧
    ((authedClosure.call (scripted acceptingScript) authedMem).1.clients
      authedClosure.tac).ReauthFunc = none :=
  ⟨by decide, by decide, rfl, by decide, by decide, by decide, by decide, by decide,
   by decide⟩

/-- C3, the code at the failing input: the provider rejects the credentials, so the
`v3auth` call of `buildProviderClient` returns an error; `buildProviderClient`
nevertheless returns the client with a nil error, and that client has no token and
a nil `EndpointLocator`.  The statements of `Init` after the `defer` then panic on
the nil `EndpointLocator`, and `Init` itself panics; neither returns the error. -/
theorem buildProviderClient_drops_auth_error :
    (v3auth (scripted rejectingScript) oneClient 0 sampleConfig.Global.AuthURL trustOpts {}).2
      = some { msg := "401 Unauthorized" } ∧
    (buildProviderClient (scripted rejectingScript) emptyMem sampleConfig).2 = (some 0, none) ∧
    ((buildProviderClient (scripted rejectingScript) emptyMem sampleConfig).1.clients 0).TokenID
      = "" ∧
    ((buildProviderClient (scripted rejectingScript) emptyMem
      sampleConfig).1.clients 0).EndpointLocator = none ∧
    (InitBody (scripted rejectingScript) (some { path := "/etc/kittenhouse/auth.cfg" })
      emptyMem).2 = .panicked ∧
    (Init (scripted rejectingScript) "/etc/kittenhouse/auth.cfg" emptyMem).2 = .panicked :=
  ⟨by decide, by decide, by decide, by decide, by decide, by decide⟩

/-- C9, the code at the failing input: the configuration file opens and parses, the
provider accepts the credentials and the locator resolves the identity filter to
`https://a.example/v3`, so that the statements of `Init` after the `defer` return
an `Authorizer` with that endpoint; `Init` itself panics. -/
theorem Init_panics_on_opened_config :
    (scripted acceptingScript).osOpen 0 "/etc/kittenhouse/auth.cfg"
      = (0, some { path := "/etc/kittenhouse/auth.cfg" }, none) ∧
    (scripted acceptingScript).gcfgReadInto 0 { path := "/etc/kittenhouse/auth.cfg" }
      = (0, sampleConfig, none) ∧
    (buildProviderClient (scripted acceptingScript) emptyMem sampleConfig).2 = (some 0, none) ∧
    ((buildProviderClient (scripted acceptingScript) emptyMem sampleConfig).1.clients 0).TokenID
      = "tok-1" ∧
    (InitBody (scripted acceptingScript) (some { path := "/etc/kittenhouse/auth.cfg" })
      emptyMem).2 = .returned (some 0, none) ∧
    ((InitBody (scripted acceptingScript) (some { path := "/etc/kittenhouse/auth.cfg" })
      emptyMem).1.authorizers 0).authClient
      = { ProviderClient := 0, Endpoint := "https://a.example/v3" } ∧
    (Init (scripted acceptingScript) "/etc/kittenhouse/auth.cfg" emptyMem).2 = .panicked :=
  ⟨by decide, by decide, by decide, by decide, by decide, by decide, by decide⟩

/-! ## Further properties of the code -/

/-- `Init` never returns an `Authorizer`: it panics, or it returns a nil
`Authorizer` with the error of `os.Open`. -/
theorem Init_returns_no_authorizer (sdk : SDK W) (cfgPath : String) (m : Mem W) :
    (Init sdk cfgPath m).2 = .panicked ∨
    ∃ e, (sdk.osOpen m.world cfgPath).2.2 = some e ∧
      (Init sdk cfgPath m).2 = .returned (none, some e) := by
  rcases ho : sdk.osOpen m.world cfgPath with ⟨w, r, _ | e⟩
  · left; simp [Init, ho]
  · right; exact ⟨e, rfl, by simp [Init, ho]⟩

/-- `buildProviderClient` returns an error exactly when `openstack.NewClient`
fails, whatever `v3auth` returns. -/
theorem buildProviderClient_error_iff (sdk : SDK W) (m : Mem W) (cfg : Config)
    (e : GoError) :
    (buildProviderClient sdk m cfg).2.2 = some e ↔
      sdk.NewClient cfg.Global.AuthURL = .error e := by
  rcases hn : sdk.NewClient cfg.Global.AuthURL with e1 | c
  · simp [buildProviderClient, hn]
  · simp [buildProviderClient, hn]

/-- When the first call of `New` runs an `Init` that returns `a` with an error `e`,
that call returns a nil `Authorizer` with `e`, and every later call returns `a`
(what `Init` left in `authorizer`) with a nil error. -/
theorem New_after_failed_construction
    (Init : String → Mem W → Mem W × Outcome (Option Nat × Option GoError))
    (p : Process W) (n : Nat) (m : Mem W) (a : Option Nat) (e : GoError)
    (h : p.onceDone = false)
    (hI : Init "/etc/kittenhouse/auth.cfg" p.mem = (m, .returned (a, some e))) :
    (callNew Init (n + 1) p).2
      = .returned (none, some e) :: List.replicate n (.returned (a, none)) := by
  have hnew : (New Init p).2 = .returned (none, some e) ∧ (New Init p).1.authorizer = a ∧
      (New Init p).1.onceDone = true := by
    simp [New, h, hI]
  simp [callNew, callNew_of_done Init n _ hnew.2.2, hnew.1, hnew.2.1]

/-- An instance of `New_after_failed_construction`: the configuration file is missing. -/
theorem New_after_failed_construction_witness :
    (callNew (Init (scripted missingFileScript)) 3 freshProcess).2
      = .returned (none, some { msg := "open: no such file or directory" })
        :: List.replicate 2 (.returned (none, none)) :=
  New_after_failed_construction (Init (scripted missingFileScript)) freshProcess 2
    emptyMem none { msg := "open: no such file or directory" } rfl (Prod.ext rfl (by decide))

/-- For options of dynamic type `trusts.AuthOptsExt`, the reauth closure installed
by a successful `v3auth` captures the options unchanged. -/
theorem v3auth_trust_closure_options (sdk : SDK W) (m m1 : Mem W) (client : Nat)
    (endpoint TrustID : String) (inner : AuthOptionsBuilder) (eo : EndpointOpts)
    (hr : inner.CanReauth = true)
    (h : v3auth sdk m client endpoint (.trustsAuthOptsExt TrustID inner) eo = (m1, none)) :
    ∃ f, (m1.clients client).ReauthFunc = some f ∧
      f.tao = .trustsAuthOptsExt TrustID inner ∧ f.tao.CanReauth = true := by
  obtain ⟨v3c, token, catalog, hN, hT, hC⟩ := v3auth_ok_inv sdk m m1 client endpoint _ eo h
  have hr2 : (AuthOptionsBuilder.trustsAuthOptsExt TrustID inner).CanReauth = true := hr
  have hm : m1 = (v3auth sdk m client endpoint (.trustsAuthOptsExt TrustID inner) eo).1 := by
    rw [h]
  subst hm
  simp only [v3auth, hN, hT, hC, hr2, if_true, Mem.setClient, Mem.newClient,
    Function.update_same]
  exact ⟨_, rfl, rfl, hr⟩

/-- An instance of `v3auth_trust_closure_options`: the options of `buildProviderClient`. -/
theorem v3auth_trust_closure_options_witness :
    ∃ f, (trustAuthedMem.clients 0).ReauthFunc = some f ∧
      f.tao = trustOpts ∧ f.tao.CanReauth = true :=
  v3auth_trust_closure_options (scripted acceptingScript) oneClient trustAuthedMem 0
    "https://id.example/" "trust-1" passwordOpts {} (by decide) (Prod.ext rfl (by decide))

end Claims

end Kittenhouse
